import Mathlib

/-!
Verification of the Microsemi (PolarFire / SmartFusion2 / IGLOO2) build
backend: the Libero SoC toolchain plugin (`libero_soc.py`, `common.py`,
`platform.py`) and the FlashPro Express programmer (`programmer.py`).

The Python string primitives used by the sources (`str.lower`, `str.upper`,
`str.startswith`, `str.split`) are embedded as executable functions over the
character list of a `String`, so that every definition evaluates by kernel
reduction on concrete inputs.
-/

namespace Microsemi

/-- Python `str.lower` (the device names handled here are ASCII). -/
def py_lower (s : String) : String := ⟨s.data.map Char.toLower⟩

/-- Python `str.upper`. -/
def py_upper (s : String) : String := ⟨s.data.map Char.toUpper⟩

/-- Python `str.startswith`. -/
def py_startswith (s p : String) : Bool := p.data.isPrefixOf s.data

/-- Helper for `py_split`: accumulates the current field (reversed). -/
def splitChAux (sep : Char) : List Char → List Char → List (List Char)
  | [], acc => [acc.reverse]
  | c :: rest, acc =>
    if c = sep then acc.reverse :: splitChAux sep rest []
    else splitChAux sep rest (c :: acc)

/-- Python `str.split(sep)` for a one-character separator such as `"-"`. -/
def py_split (sep : Char) (s : String) : List String :=
  (splitChAux sep s.data []).map String.mk

/-! ## Data model (litex `generic_platform` constraint objects) -/

/-- Constraint objects attached to a signal request: `Pins`, `IOStandard`,
`Misc`, plus a case for any other constraint kind, which the PDC formatters
do not recognize. -/
inductive SigAttr
  | pins (identifiers : List String)
  | iostandard (name : String)
  | misc (value : String)
  | other (kind : String)
deriving DecidableEq, Repr

/-- One entry of `named_sc`: signal name, ordered pin list, other constraint
objects, resource name. -/
structure NamedSC where
  sig : String
  pins : List String
  others : List SigAttr
  resname : String
deriving DecidableEq, Repr

/-- A file produced by one of the `build_*_constraints` methods: its path,
its text, and the format tag the method returns. -/
structure ConstraintFile where
  path : String
  content : String
  tag : String
deriving DecidableEq, Repr

/-! ## MicrosemiLiberoSoCToolchain -/

/-- `tcl_name`: wrap a name in Tcl braces. -/
def tcl_name (name : String) : String := "\x7b" ++ name ++ "\x7d"

/-- One step of the attribute loop in `_format_io_pdc_mpf`: `Pins`,
`IOStandard` and `Misc` objects append their flag, anything else leaves the
line unchanged. -/
def mpf_attr_step (r : String) (c : SigAttr) : String :=
  match c with
  | .pins ids => r ++ "-pin_name " ++ ids.headD "" ++ " "
  | .iostandard n => r ++ "-io_std " ++ n ++ " "
  | .misc m => r ++ "-RES_PULL " ++ m ++ " "
  | .other _ => r

/-- One step of the attribute loop in `_format_io_pdc_m2s`. -/
def m2s_attr_step (r : String) (c : SigAttr) : String :=
  match c with
  | .pins ids => r ++ "-pinname " ++ ids.headD "" ++ " "
  | .iostandard n => r ++ "-iostd " ++ n ++ " "
  | .misc m => r ++ "-RES_PULL " ++ m ++ " "
  | .other _ => r

/-- `_format_io_pdc_mpf`: one PDC line for PolarFire devices. A `Pins`
object holding the bound pin is put in front of the other attributes. -/
def format_io_pdc_mpf (signame pin : String) (others : List SigAttr) : String :=
  ((SigAttr.pins [pin] :: others).foldl mpf_attr_step
    ("set_io -port_name " ++ tcl_name signame ++ " ")) ++ "-fixed true\n"

/-- `_format_io_pdc_m2s`: one PDC line for SmartFusion2/IGLOO2 devices. -/
def format_io_pdc_m2s (signame pin : String) (others : List SigAttr) : String :=
  ((SigAttr.pins [pin] :: others).foldl m2s_attr_step
    ("set_io " ++ tcl_name signame ++ " ")) ++ "-fixed true\n"

/-- The per-signal family dispatch inside `build_io_constraints`. -/
def format_io_pdc (device signame pin : String) (others : List SigAttr) : String :=
  if py_startswith (py_lower device) "mpf" then format_io_pdc_mpf signame pin others
  else format_io_pdc_m2s signame pin others

/-- The PDC text contributed by one `named_sc` entry: one indexed line per
pin when more than one pin is bound, otherwise a single line for `pins[0]`;
`none` models the `IndexError` Python raises on `pins[0]` for an empty pin
list. -/
def io_pdc_of_entry (device : String) (e : NamedSC) : Option String :=
  if 1 < e.pins.length then
    some (String.join (e.pins.enum.map fun ip =>
      format_io_pdc device (e.sig ++ "[" ++ toString ip.1 ++ "]") ip.2 e.others))
  else
    e.pins.head?.map fun p => format_io_pdc device e.sig p e.others

/-- `build_io_constraints`: concatenates the per-entry text and appends the
user-supplied raw IO constraints joined by newlines. -/
def build_io_constraints (device : String) (named_sc : List NamedSC)
    (additional_io_constraints : List String) (build_name : String) :
    Option ConstraintFile :=
  (named_sc.mapM (io_pdc_of_entry device)).map fun parts =>
    ⟨build_name ++ "_io.pdc",
     String.join parts ++ String.intercalate "\n" additional_io_constraints,
     "PDC"⟩

/-- `build_placement_constraints`: the floorplan file is exactly the raw
`additional_fp_constraints` strings joined by newlines. -/
def build_placement_constraints (build_name : String)
    (additional_fp_constraints : List String) : ConstraintFile :=
  ⟨build_name ++ "_fp.pdc", String.intercalate "\n" additional_fp_constraints, "PDC"⟩

/-- `MicrosemiPlatform.add_placement_constraint` appends an
(instance, x, y) tuple to the platform list. -/
def add_placement_constraint (pcs : List (String × String × String))
    (inst x y : String) : List (String × String × String) :=
  pcs ++ [(inst, x, y)]

/-- The device-descriptor parsing done identically at the top of
`build_project_mpf` and `build_project_m2s`: 3 dash-separated fields give
(die, package, speed), 2 fields default the speed grade to `"STD"`, anything
else raises `ValueError`. -/
def parse_device (device : String) : Except String (String × String × String) :=
  match py_split '-' device with
  | [die, package, speed] => .ok (die, package, speed)
  | [die, package] => .ok (die, package, "STD")
  | _ => .error ("Unexpected device string format: " ++ device)

/-- The speed-grade formatting done identically by both project builders:
`"STD"` (any case) passes through, an unsigned grade gets a leading `"-"`,
a signed grade passes through. -/
def format_speed (speed : String) : String :=
  if py_upper speed = "STD" then speed
  else if !(py_startswith speed "-") then "-" ++ speed
  else speed

/-! ## common.py override tables and the family dispatch of `build` -/

/-- `common.microsemi_mpf_special_overrides`, as (special, implementation)
class-name pairs. -/
def microsemi_mpf_special_overrides : List (String × String) :=
  [("AsyncResetSynchronizer", "MicrosemiAsyncResetSynchronizer"),
   ("Tristate", "MicrosemiSDRTristate"),
   ("SDROutput", "MicrosemiSDROutput"),
   ("SDRInput", "MicrosemiSDRInput"),
   ("SDRTristate", "MicrosemiSDRTristate")]

/-- `common.microsemi_m2s_special_overrides`. -/
def microsemi_m2s_special_overrides : List (String × String) :=
  [("AsyncResetSynchronizer", "MicrosemiAsyncResetSynchronizer"),
   ("Tristate", "MicrosemiSDRTristate"),
   ("SDROutput", "MicrosemiSDROutput"),
   ("SDRInput", "MicrosemiSDRInput"),
   ("SDRTristate", "MicrosemiSDRTristate")]

/-- The family dispatch in `MicrosemiLiberoSoCToolchain.build`: selects the
attribute-override table from the lowered device prefix or raises. -/
def build_select_overrides (device : String) : Except String (List (String × String)) :=
  if py_startswith (py_lower device) "mpf" then .ok microsemi_mpf_special_overrides
  else if py_startswith (py_lower device) "m2s" || py_startswith (py_lower device) "m2gl" then
    .ok microsemi_m2s_special_overrides
  else .error ("Unsupported device family for device: " ++ device)

/-- The two device families the dispatchers distinguish. -/
inductive Family
  | polarfire
  | smartfusion2_igloo2
deriving DecidableEq, Repr

/-- The prefix classification both `build` and `build_project` implement. -/
def classify_family (device : String) : Option Family :=
  if py_startswith (py_lower device) "mpf" then some .polarfire
  else if py_startswith (py_lower device) "m2s" || py_startswith (py_lower device) "m2gl" then
    some .smartfusion2_igloo2
  else none

/-! ## Project script builders -/

/-- The `new_project` statement of `build_project_mpf`. -/
def new_project_line_mpf (build_name die package formatted_speed : String) : String :=
  String.intercalate " "
    ["new_project",
     "-location \x7b./impl\x7d",
     "-name " ++ tcl_name build_name,
     "-project_description \x7b\x7d",
     "-block_mode 0",
     "-standalone_peripheral_initialization 0",
     "-instantiate_in_smartdesign 1",
     "-ondemand_build_dh 0",
     "-use_enhanced_constraint_flow 1",
     "-hdl \x7bVERILOG\x7d",
     "-family \x7bPolarFire\x7d",
     "-die " ++ tcl_name die,
     "-package " ++ tcl_name package,
     "-speed " ++ tcl_name formatted_speed,
     "-die_voltage \x7b1.0\x7d",
     "-part_range \x7bIND\x7d",
     "-adv_options \x7bVCCI_1.2_VOLTR:IND\x7d",
     "-adv_options \x7bVCCI_1.5_VOLTR:IND\x7d",
     "-adv_options \x7bVCCI_1.8_VOLTR:IND\x7d",
     "-adv_options \x7bVCCI_2.5_VOLTR:IND\x7d",
     "-adv_options \x7bVCCI_3.3_VOLTR:IND\x7d"]

/-- The `new_project` statement of `build_project_m2s`. -/
def new_project_line_m2s (family_name build_name die package formatted_speed : String) :
    String :=
  String.intercalate " "
    ["new_project",
     "-location \x7b./impl\x7d",
     "-name " ++ tcl_name build_name,
     "-project_description \x7b\x7d",
     "-block_mode 0",
     "-standalone_peripheral_initialization 0",
     "-instantiate_in_smartdesign 1",
     "-ondemand_build_dh 0",
     "-use_enhanced_constraint_flow 1",
     "-hdl \x7bVERILOG\x7d",
     "-family \x7b" ++ family_name ++ "\x7d",
     "-die " ++ tcl_name die,
     "-package " ++ tcl_name package,
     "-speed " ++ tcl_name formatted_speed,
     "-die_voltage \x7b1.2\x7d",
     "-part_range \x7bIND\x7d",
     "-adv_options \x7bIO_DEFT_STD:LVCMOS 3.3V\x7d",
     "-adv_options \x7bRESTRICTPROBEPINS:1\x7d",
     "-adv_options \x7bPLL_SUPPLY:PLL_SUPPLY_33\x7d"]

/-- Hierarchy, root-module and constraint-import statements shared by both
builders, in source order. -/
def import_files_lines (build_name : String) : List String :=
  ["build_design_hierarchy",
   "set_root -module " ++ tcl_name (build_name ++ "::work"),
   "import_files -io_pdc " ++ tcl_name (build_name ++ "_io.pdc"),
   "import_files -fp_pdc " ++ tcl_name (build_name ++ "_fp.pdc"),
   "import_files -convert_EDN_to_HDL 0 -sdc " ++ tcl_name (build_name ++ ".sdc")]

/-- The `organize_tool_files` statement for the synthesis stage. -/
def organize_synthesize_line (build_name : String) : String :=
  String.intercalate " "
    ["organize_tool_files",
     "-tool \x7bSYNTHESIZE\x7d",
     "-file impl/constraint/" ++ build_name ++ ".sdc",
     "-module " ++ build_name,
     "-input_type \x7bconstraint\x7d"]

/-- The `organize_tool_files` statement for the place-and-route stage. -/
def organize_placeroute_line (build_name : String) : String :=
  String.intercalate " "
    ["organize_tool_files",
     "-tool \x7bPLACEROUTE\x7d",
     "-file impl/constraint/io/" ++ build_name ++ "_io.pdc",
     "-file impl/constraint/fp/" ++ build_name ++ "_fp.pdc",
     "-file impl/constraint/" ++ build_name ++ ".sdc",
     "-module " ++ build_name,
     "-input_type \x7bconstraint\x7d"]

/-- The `organize_tool_files` statement for timing verification. -/
def organize_verifytiming_line (build_name : String) : String :=
  String.intercalate " "
    ["organize_tool_files",
     "-tool \x7bVERIFYTIMING\x7d",
     "-file impl/constraint/" ++ build_name ++ ".sdc",
     "-module " ++ build_name,
     "-input_type \x7bconstraint\x7d"]

/-- The five build-flow `run_tool` statements, in source order. -/
def run_tool_lines : List String :=
  ["run_tool -name \x7bCONSTRAINT_MANAGEMENT\x7d",
   "run_tool -name \x7bSYNTHESIZE\x7d",
   "run_tool -name \x7bPLACEROUTE\x7d",
   "run_tool -name \x7bGENERATEPROGRAMMINGDATA\x7d",
   "run_tool -name \x7bGENERATEPROGRAMMINGFILE\x7d"]

/-- The triple-quoted `export_prog_job` block appended by `build_project_mpf`
(backslash continuations and indentation as in the source f-string). -/
def export_prog_job_mpf (build_name : String) : String :=
  "\n        export_prog_job \\\n            -job_file_name \x7b" ++ build_name ++
  "\x7d \\\n            -export_dir \x7b./impl/designer/" ++ build_name ++
  "/export\x7d \\\n            -bitstream_file_type \x7bTRUSTED_FACILITY\x7d" ++
  " \\\n            -bitstream_file_components \x7bFABRIC SNVM\x7d" ++
  " \\\n            -program_design 0" ++
  " \\\n            -design_bitstream_format \x7bPPD\x7d\n        "

/-- The `export_prog_job` statement appended by `build_project_m2s`. -/
def export_prog_job_m2s (build_name : String) : String :=
  String.intercalate " "
    ["export_prog_job",
     "-job_file_name \x7b" ++ build_name ++ "\x7d",
     "-export_dir \x7b./impl/designer/" ++ build_name ++ "/export\x7d",
     "-bitstream_file_type \x7bTRUSTED_FACILITY\x7d",
     "-bitstream_file_components \x7bFABRIC\x7d",
     "-sanitize_envm  0",
     "-design_bitstream_format \x7bPPD\x7d"]

/-- `build_project_mpf`, as the list of Tcl statements it assembles; the
`ValueError` on a malformed descriptor is raised before anything else. -/
def build_project_mpf_lines (build_name device : String) (sources : List String) :
    Except String (List String) :=
  match parse_device device with
  | .error e => .error e
  | .ok (die, package, speed) =>
    .ok ([new_project_line_mpf build_name die package (format_speed speed)]
      ++ sources.map (fun f => "import_files -hdl_source \x7b" ++ f ++ "\x7d")
      ++ import_files_lines build_name
      ++ [organize_synthesize_line build_name,
          organize_placeroute_line build_name,
          organize_verifytiming_line build_name]
      ++ run_tool_lines
      ++ [export_prog_job_mpf build_name])

/-- `build_project_mpf`: file name and joined script text. -/
def build_project_mpf (build_name device : String) (sources : List String) :
    Except String (String × String) :=
  (build_project_mpf_lines build_name device sources).map fun tcl =>
    (build_name ++ ".tcl", String.intercalate "\n" tcl)

/-- `build_project_m2s`, as the list of Tcl statements it assembles. -/
def build_project_m2s_lines (build_name device : String) (sources : List String) :
    Except String (List String) :=
  let family_name :=
    if py_startswith (py_lower device) "m2s" then "SmartFusion2" else "IGLOO2"
  match parse_device device with
  | .error e => .error e
  | .ok (die, package, speed) =>
    .ok ([new_project_line_m2s family_name build_name die package (format_speed speed)]
      ++ sources.map (fun f => "import_files -hdl_source " ++ tcl_name f)
      ++ import_files_lines build_name
      ++ [organize_synthesize_line build_name,
          organize_placeroute_line build_name,
          organize_verifytiming_line build_name]
      ++ run_tool_lines
      ++ [export_prog_job_m2s build_name])

/-- `build_project_m2s`: file name and joined script text. -/
def build_project_m2s (build_name device : String) (sources : List String) :
    Except String (String × String) :=
  (build_project_m2s_lines build_name device sources).map fun tcl =>
    (build_name ++ ".tcl", String.intercalate "\n" tcl)

/-- `build_project`: the family dispatch over the lowered device prefix. -/
def build_project (device build_name : String) (sources : List String) :
    Except String (String × String) :=
  if py_startswith (py_lower device) "mpf" then
    build_project_mpf build_name device sources
  else if py_startswith (py_lower device) "m2s" || py_startswith (py_lower device) "m2gl" then
    build_project_m2s build_name device sources
  else .error ("Unsupported device family for device: " ++ device)

/-! ## Timing constraints and false paths -/

/-- A design signal: its stable creation sequence number (`duid`) and its
resolved net name. -/
structure Sig where
  duid : Nat
  name : String
deriving DecidableEq, Repr

/-- One clock constraint: the clock signal, its period (rendered text) and
the optional human label. -/
structure ClockCst where
  clk : Sig
  period : String
  label : Option String
deriving DecidableEq, Repr

/-- One `create_clock` SDC line; the label falls back to the net name. -/
def create_clock_line (c : ClockCst) : String :=
  "create_clock -name " ++ (c.label.getD c.clk.name) ++ " -period " ++ c.period ++
  " [get_nets " ++ c.clk.name ++ "]"

/-- One `set_clock_groups` SDC line for a false-path pair. -/
def false_path_line (p : Sig × Sig) : String :=
  "set_clock_groups -group [get_clocks -include_generated_clocks -of [get_nets " ++
  p.1.name ++ "]] -group [get_clocks -include_generated_clocks -of [get_nets " ++
  p.2.name ++ "]] -asynchronous"

/-- `build_timing_constraints`: clock lines sorted by `duid`, false-path
lines sorted by the endpoint `duid` pair, then the raw extra constraints. -/
def build_timing_constraints (build_name : String) (clocks : List ClockCst)
    (false_paths : List (Sig × Sig)) (additional_timing_constraints : List String) :
    ConstraintFile :=
  let cl := (clocks.mergeSort fun a b => Nat.ble a.clk.duid b.clk.duid).map create_clock_line
  let fl := (false_paths.mergeSort fun a b =>
      Nat.blt a.1.duid b.1.duid ||
        (a.1.duid == b.1.duid && Nat.ble a.2.duid b.2.duid)).map false_path_line
  ⟨build_name ++ ".sdc",
   String.intercalate "\n" (cl ++ fl ++ additional_timing_constraints), "SDC"⟩

/-- `add_false_path_constraint`: the pair is stored unless the swapped pair
is already present. -/
def add_false_path_constraint {α : Type} [DecidableEq α]
    (false_paths : Finset (α × α)) (from_ to_ : α) : Finset (α × α) :=
  if (to_, from_) ∈ false_paths then false_paths else insert (from_, to_) false_paths

/-! ## The build pipeline -/

/-- The inputs a build consumes, including the platform placement-constraint
tuples registered through `add_placement_constraint`. -/
structure BuildState where
  device : String
  build_name : String
  sources : List String
  named_sc : List NamedSC
  additional_io_constraints : List String
  additional_fp_constraints : List String
  additional_timing_constraints : List String
  clocks : List ClockCst
  false_paths : List (Sig × Sig)
  placement_constraints : List (String × String × String)
deriving Repr

/-- Modelled from the spec: the build-orchestration base class
(`GenericToolchain.build`) is not among the sources under review; following
the spec, the device descriptor is parsed and validated at the boundary and
configuration errors (unsupported family, malformed descriptor) are reported
before any file side effect, after which the constraint files and the project
script are produced. An error result carries no produced files. -/
def build_pipeline (st : BuildState) : Except String (List (String × String)) :=
  match build_select_overrides st.device with
  | .error e => .error e
  | .ok _ =>
    match parse_device st.device with
    | .error e => .error e
    | .ok _ =>
      match build_io_constraints st.device st.named_sc st.additional_io_constraints
          st.build_name with
      | none => .error "IndexError: list index out of range"
      | some io =>
        let fp := build_placement_constraints st.build_name st.additional_fp_constraints
        let sdc := build_timing_constraints st.build_name st.clocks st.false_paths
          st.additional_timing_constraints
        match build_project st.device st.build_name st.sources with
        | .error e => .error e
        | .ok prj =>
          .ok [(io.path, io.content), (fp.path, fp.content), (sdc.path, sdc.content), prj]

/-! ## Flag decomposition of a PDC line -/

/-- The three flag kinds a PDC line can carry. -/
inductive PdcFlag
  | pin_flag (value : String)
  | std_flag (value : String)
  | pull_flag (value : String)
deriving DecidableEq, Repr

/-- The flag an attribute contributes, if any. -/
def flagOfAttr : SigAttr → Option PdcFlag
  | .pins ids => some (.pin_flag (ids.headD ""))
  | .iostandard n => some (.std_flag n)
  | .misc m => some (.pull_flag m)
  | .other _ => none

/-- The flags of a PDC line, in emission order: the bound pin first, then
one flag per recognized attribute in list order. -/
def pdc_flags (pin : String) (others : List SigAttr) : List PdcFlag :=
  (SigAttr.pins [pin] :: others).filterMap flagOfAttr

/-- PolarFire spelling of a flag. -/
def renderFlagMpf : PdcFlag → String
  | .pin_flag v => "-pin_name " ++ v ++ " "
  | .std_flag v => "-io_std " ++ v ++ " "
  | .pull_flag v => "-RES_PULL " ++ v ++ " "

/-- SmartFusion2/IGLOO2 spelling of a flag. -/
def renderFlagM2s : PdcFlag → String
  | .pin_flag v => "-pinname " ++ v ++ " "
  | .std_flag v => "-iostd " ++ v ++ " "
  | .pull_flag v => "-RES_PULL " ++ v ++ " "

/-- The position a flag kind occupies in the order claimed by the spec
(pin, then IO standard, then pull). -/
def flagRank : PdcFlag → Nat
  | .pin_flag _ => 0
  | .std_flag _ => 1
  | .pull_flag _ => 2

/-- Whether the formatters recognize an attribute kind. -/
def SigAttr.isRecognized : SigAttr → Bool
  | .other _ => false
  | _ => true

/-! ## FlashPro Express programmer -/

/-- The upward walk of `load_bitstream`, on a path given as its component
list: drop final components until one literally named `impl` is reached
(`none` when no component of the path is named `impl`). -/
def find_impl_rev : List String → Option (List String)
  | [] => none
  | a :: rest => if a = "impl" then some (a :: rest) else find_impl_rev rest

/-- The prefix of the path ending at the nearest component named `impl`. -/
def find_impl_dir (p : List String) : Option (List String) :=
  (find_impl_rev p.reverse).map List.reverse

/-- `pathlib.Path.stem`: the final component without its last dot-suffix
(a leading dot does not start a suffix). -/
def path_stem (s : String) : String :=
  match ((List.range s.data.length).filter fun i => s.data.getD i ' ' = '.').getLast? with
  | none => s
  | some 0 => s
  | some i => ⟨s.data.take i⟩

/-- `load_bitstream`: derive the build directory (parent of the nearest
`impl` component), the project name (stem of the job file) and the device,
which are the arguments handed to `program_device`. -/
def load_bitstream (bitstream_path : List String) (device : Option String) :
    Except String (List String × String × String) :=
  match find_impl_dir bitstream_path with
  | none => .error ("Could not find impl directory in the path of " ++
      String.intercalate "/" bitstream_path)
  | some ip =>
    match device with
    | none => .error "No device specified."
    | some d => .ok (ip.dropLast, path_stem (bitstream_path.getLastD ""), d)

/-- The job-file path `program_device` points FPExpress at. -/
def job_file_path (build_dir project_name : String) : String :=
  build_dir ++ "/impl/designer/" ++ project_name ++ "/export/" ++ project_name ++ ".job"

/-- The Tcl statements of the temporary programmer control script. -/
def program_tcl_lines (programmer_proj_path job_file project_name die : String) :
    List String :=
  ["# Generated for project: " ++ project_name,
   String.intercalate " "
     ["create_job_project",
      "-job_project_location \x7b" ++ programmer_proj_path ++ "\x7d",
      "-job_file \x7b" ++ job_file ++ "\x7d",
      "-overwrite 1"],
   String.intercalate " "
     ["set_programming_action", "-name \x7b" ++ die ++ "\x7d", "-action \x7bPROGRAM\x7d"],
   String.intercalate " "
     ["run_selected_actions", "-prog_spi_flash 0", "-disable_prog_design 0"],
   "save_project",
   "puts \"\\nSUCCESS: Device programming script finished.\""]

/-- How the write of the temporary script can go: it succeeds, it fails
after the file was created (e.g. a full disk), or it fails with no file
created. -/
inductive WriteBehavior
  | ok
  | failCreated
  | failNotCreated
deriving DecidableEq, Repr

/-- The exit status of the external FPExpress invocation. -/
inductive ToolBehavior
  | exitZero
  | exitNonZero (code : Nat)
deriving DecidableEq, Repr

/-- How a `program_device` call ends. -/
inductive ProgOutcome
  | success
  | valueError
  | ioError
  | toolError (code : Nat)
deriving DecidableEq, Repr

/-- Observable result of a `program_device` call: whether the programmer
project directory was created, whether the temporary Tcl script still exists
after the call returns or raises, the script content when it was fully
written, whether FPExpress ran, and the outcome. -/
structure ProgResult where
  dirCreated : Bool
  scriptExists : Bool
  script : Option String
  toolRan : Bool
  outcome : ProgOutcome
deriving DecidableEq, Repr

/-- `program_device`. The source creates the programmer project directory,
unpacks the device string into exactly three dash-separated fields, writes
the temporary Tcl script, runs FPExpress, and removes the script in a
`finally` clause that protects only the subprocess call: a write-time
`IOError` re-raises before that clause is entered. -/
def program_device (build_dir project_name device_string : String)
    (w : WriteBehavior) (t : ToolBehavior) : ProgResult :=
  match py_split '-' device_string with
  | [die, _, _] =>
    let content := String.intercalate "\n" (program_tcl_lines
      (build_dir ++ "/impl/programmer") (job_file_path build_dir project_name)
      project_name die)
    match w with
    | .failNotCreated => ⟨true, false, none, false, .ioError⟩
    | .failCreated => ⟨true, true, none, false, .ioError⟩
    | .ok =>
      match t with
      | .exitZero => ⟨true, false, some content, true, .success⟩
      | .exitNonZero c => ⟨true, false, some content, true, .toolError c⟩
  | _ => ⟨true, false, none, false, .valueError⟩

/-- The unpacking `die, _, _ = device_string.split("-")` on its own. -/
def extract_die (device_string : String) : Except String String :=
  match py_split '-' device_string with
  | [die, _, _] => .ok die
  | _ => .error ("ValueError: cannot unpack device string " ++ device_string)

/-! ## Helper lemmas -/

theorem string_foldl_append (l : List String) (s : String) :
    l.foldl (· ++ ·) s = s ++ String.join l := by
  induction l generalizing s with
  | nil => exact (String.append_empty s).symm
  | cons a l ih =>
    show List.foldl (· ++ ·) (s ++ a) l = s ++ String.join (a :: l)
    rw [ih]
    have h2 : String.join (a :: l) = a ++ String.join l := by
      show List.foldl (· ++ ·) ("" ++ a) l = a ++ String.join l
      rw [ih]; rfl
    rw [h2, String.append_assoc]

theorem string_join_cons (a : String) (l : List String) :
    String.join (a :: l) = a ++ String.join l := by
  show List.foldl (· ++ ·) ("" ++ a) l = a ++ String.join l
  rw [string_foldl_append]; rfl

theorem foldl_mpf_attr_step (l : List SigAttr) (r : String) :
    l.foldl mpf_attr_step r =
      r ++ String.join ((l.filterMap flagOfAttr).map renderFlagMpf) := by
  induction l generalizing r with
  | nil => exact (String.append_empty r).symm
  | cons a l ih =>
    cases a <;>
      simp [mpf_attr_step, flagOfAttr, renderFlagMpf, List.filterMap_cons, ih,
        string_join_cons, String.append_assoc]

theorem foldl_m2s_attr_step (l : List SigAttr) (r : String) :
    l.foldl m2s_attr_step r =
      r ++ String.join ((l.filterMap flagOfAttr).map renderFlagM2s) := by
  induction l generalizing r with
  | nil => exact (String.append_empty r).symm
  | cons a l ih =>
    cases a <;>
      simp [m2s_attr_step, flagOfAttr, renderFlagM2s, List.filterMap_cons, ih,
        string_join_cons, String.append_assoc]

theorem filterMap_flagOfAttr_filter (l : List SigAttr) :
    (l.filter SigAttr.isRecognized).filterMap flagOfAttr = l.filterMap flagOfAttr := by
  induction l with
  | nil => rfl
  | cons a l ih =>
    cases a <;> simp [SigAttr.isRecognized, flagOfAttr, List.filterMap_cons, ih]

/-! ## Claim C4 -/

/-- Claim C4, amended: every PDC line is the fixed header, then the rendered
flags of `pdc_flags` (the bound pin's flag first, then one flag per
recognized attribute in list order), then the `-fixed true` marker;
attributes of unrecognized kinds contribute nothing. -/
theorem c4_flag_emission (signame pin : String) (others : List SigAttr) :
    format_io_pdc_mpf signame pin others =
      "set_io -port_name " ++ tcl_name signame ++ " " ++
        String.join ((pdc_flags pin others).map renderFlagMpf) ++ "-fixed true\n"
    ∧ format_io_pdc_m2s signame pin others =
      "set_io " ++ tcl_name signame ++ " " ++
        String.join ((pdc_flags pin others).map renderFlagM2s) ++ "-fixed true\n"
    ∧ (pdc_flags pin others).head? = some (PdcFlag.pin_flag pin)
    ∧ pdc_flags pin (others.filter SigAttr.isRecognized) = pdc_flags pin others := by
  refine ⟨?_, ?_, ?_, ?_⟩
  · rw [format_io_pdc_mpf, foldl_mpf_attr_step]
    simp [pdc_flags, String.append_assoc]
  · rw [format_io_pdc_m2s, foldl_m2s_attr_step]
    simp [pdc_flags, String.append_assoc]
  · simp [pdc_flags, List.filterMap_cons, flagOfAttr]
  · simp [pdc_flags, List.filterMap_cons, flagOfAttr,
      filterMap_flagOfAttr_filter]

/-- Claim C4, counterexample: for the attribute list
`[Misc "UP", IOStandard "LVCMOS33"]` the emitted PolarFire line carries the
pull flag before the IO-standard flag, so the flags are not in the fixed
pin / standard / pull order the claim states. -/
theorem c4_flag_order_counterexample :
    format_io_pdc_mpf "a" "P1" [SigAttr.misc "UP", SigAttr.iostandard "LVCMOS33"] =
      "set_io -port_name \x7ba\x7d -pin_name P1 -RES_PULL UP -io_std LVCMOS33 -fixed true\n"
    ∧ pdc_flags "P1" [SigAttr.misc "UP", SigAttr.iostandard "LVCMOS33"] =
      [PdcFlag.pin_flag "P1", PdcFlag.pull_flag "UP", PdcFlag.std_flag "LVCMOS33"]
    ∧ ¬ List.Pairwise (fun a b => flagRank a ≤ flagRank b)
        (pdc_flags "P1" [SigAttr.misc "UP", SigAttr.iostandard "LVCMOS33"]) :=
  ⟨by decide, by decide, by decide⟩

/-! ## Claim C5 -/

/-- Claim C5: registering a false-path pair and then its swap leaves exactly
one stored pair for the unordered pair, and re-registering a pair already
present in either orientation is a no-op. -/
theorem c5_false_path_idempotent {α : Type} [DecidableEq α] (s : Finset (α × α))
    (A B : α) (h : (A, B) ∈ s ∨ (B, A) ∈ s) :
    (add_false_path_constraint s A B = s ∧ add_false_path_constraint s B A = s)
    ∧ ((add_false_path_constraint (add_false_path_constraint ∅ A B) B A).filter
        (fun p => p = (A, B) ∨ p = (B, A))).card = 1 := by
  constructor
  · constructor
    · unfold add_false_path_constraint
      by_cases hba : (B, A) ∈ s
      · simp [hba]
      · rcases h with hab | hba2
        · simp [hba, Finset.insert_eq_self.mpr hab]
        · exact absurd hba2 hba
    · unfold add_false_path_constraint
      by_cases hab : (A, B) ∈ s
      · simp [hab]
      · rcases h with hab2 | hba
        · exact absurd hab2 hab
        · simp [hab, Finset.insert_eq_self.mpr hba]
  · have h1 : add_false_path_constraint (∅ : Finset (α × α)) A B = {(A, B)} := by
      simp [add_false_path_constraint]
    have h2 : add_false_path_constraint ({(A, B)} : Finset (α × α)) B A = {(A, B)} := by
      simp [add_false_path_constraint]
    rw [h1, h2, Finset.filter_singleton]
    simp

/-- Witness for C5 at a concrete pair of naturals. -/
theorem c5_false_path_idempotent_witness :
    (add_false_path_constraint ({((0 : Nat), (1 : Nat))} : Finset (Nat × Nat)) 0 1 =
        {(0, 1)}
      ∧ add_false_path_constraint ({((0 : Nat), (1 : Nat))} : Finset (Nat × Nat)) 1 0 =
        {(0, 1)})
    ∧ ((add_false_path_constraint
          (add_false_path_constraint (∅ : Finset (Nat × Nat)) 0 1) 1 0).filter
        (fun p => p = (0, 1) ∨ p = (1, 0))).card = 1 :=
  c5_false_path_idempotent {(0, 1)} 0 1 (Or.inl (by decide))

theorem m2_not_mpf (s : String)
    (h : py_startswith s "m2s" = true ∨ py_startswith s "m2gl" = true) :
    py_startswith s "mpf" = false := by
  unfold py_startswith at h ⊢
  rw [← Bool.not_eq_true, List.isPrefixOf_iff_prefix]
  rcases h with h | h <;>
  · rw [List.isPrefixOf_iff_prefix] at h
    obtain ⟨u, hu⟩ := h
    rw [← hu]
    intro hc
    rw [show "mpf".data = ['m', 'p', 'f'] from rfl] at hc
    first
      | rw [show "m2s".data ++ u = 'm' :: '2' :: 's' :: u from rfl] at hc
      | rw [show "m2gl".data ++ u = 'm' :: '2' :: 'g' :: 'l' :: u from rfl] at hc
    rw [List.cons_prefix_cons, List.cons_prefix_cons] at hc
    exact absurd hc.2.1 (by decide)

theorem parse_device_not23 (d : String) (h2 : (py_split '-' d).length ≠ 2)
    (h3 : (py_split '-' d).length ≠ 3) :
    parse_device d = Except.error ("Unexpected device string format: " ++ d) := by
  rcases hl : py_split '-' d with _ | ⟨a, _ | ⟨b, _ | ⟨c, l⟩⟩⟩
  · simp [parse_device, hl]
  · simp [parse_device, hl]
  · exact absurd (by rw [hl]; rfl) h2
  · rcases l with _ | ⟨e, l⟩
    · exact absurd (by rw [hl]; rfl) h3
    · simp [parse_device, hl]

/-! ## Claim C1 -/

/-- Claim C1: both dispatchers implement the same case-insensitive prefix
classification — `mpf*` selects the PolarFire override table and the
PolarFire project builder, `m2s*`/`m2gl*` select the SmartFusion2/IGLOO2
table and builder, and any other prefix raises the unsupported-device-family
error. -/
theorem c1_family_dispatch (device build_name : String) (sources : List String)
    (d e : String) :
    (build_select_overrides device = match classify_family device with
      | some Family.polarfire => Except.ok microsemi_mpf_special_overrides
      | some Family.smartfusion2_igloo2 => Except.ok microsemi_m2s_special_overrides
      | none => Except.error ("Unsupported device family for device: " ++ device))
    ∧ (build_project device build_name sources = match classify_family device with
      | some Family.polarfire => build_project_mpf build_name device sources
      | some Family.smartfusion2_igloo2 => build_project_m2s build_name device sources
      | none => Except.error ("Unsupported device family for device: " ++ device))
    ∧ (py_lower d = py_lower e → classify_family d = classify_family e)
    ∧ (py_startswith (py_lower device) "mpf" = true →
        classify_family device = some Family.polarfire)
    ∧ (py_startswith (py_lower device) "m2s" = true ∨
        py_startswith (py_lower device) "m2gl" = true →
        classify_family device = some Family.smartfusion2_igloo2)
    ∧ (py_startswith (py_lower device) "mpf" = false →
        py_startswith (py_lower device) "m2s" = false →
        py_startswith (py_lower device) "m2gl" = false →
        classify_family device = none) := by
  refine ⟨?_, ?_, ?_, ?_, ?_, ?_⟩
  · by_cases h1 : py_startswith (py_lower device) "mpf" = true <;>
      by_cases h2 : py_startswith (py_lower device) "m2s" = true <;>
      by_cases h3 : py_startswith (py_lower device) "m2gl" = true <;>
      simp [build_select_overrides, classify_family, h1, h2, h3]
  · by_cases h1 : py_startswith (py_lower device) "mpf" = true <;>
      by_cases h2 : py_startswith (py_lower device) "m2s" = true <;>
      by_cases h3 : py_startswith (py_lower device) "m2gl" = true <;>
      simp [build_project, classify_family, h1, h2, h3]
  · intro h
    simp only [classify_family, h]
  · intro h
    simp [classify_family, h]
  · intro h
    have hm := m2_not_mpf (py_lower device) h
    rcases h with h | h <;> simp [classify_family, hm, h]
  · intro ha hb hc
    simp [classify_family, ha, hb, hc]

/-- Witness for C1 on concrete device names of all three kinds. -/
theorem c1_family_dispatch_witness :
    classify_family "M2S010" = classify_family "m2s010"
    ∧ classify_family "MPF300TS" = some Family.polarfire
    ∧ classify_family "M2GL025" = some Family.smartfusion2_igloo2
    ∧ classify_family "xc7a35t" = none :=
  ⟨(c1_family_dispatch "x" "top" [] "M2S010" "m2s010").2.2.1 (by decide),
   (c1_family_dispatch "MPF300TS" "top" [] "x" "x").2.2.2.1 (by decide),
   (c1_family_dispatch "M2GL025" "top" [] "x" "x").2.2.2.2.1 (Or.inr (by decide)),
   (c1_family_dispatch "xc7a35t" "top" [] "x" "x").2.2.2.2.2
     (by decide) (by decide) (by decide)⟩

/-! ## Claim C2 -/

/-- Claim C2: a 2-field descriptor defaults the speed grade to `"STD"`,
rendered unprefixed in the generated script; for a 3-field descriptor an
unsigned non-STD grade is rendered with one leading `"-"`; an already signed
grade passes through unchanged; 1 or 4+ fields make project generation raise
instead of producing a script. -/
theorem c2_speed_grade (build_name device die package g : String)
    (sources : List String) :
    (py_split '-' device = [die, package] →
      parse_device device = Except.ok (die, package, "STD")
      ∧ format_speed "STD" = "STD"
      ∧ (∃ rest, build_project_mpf_lines build_name device sources =
          Except.ok (new_project_line_mpf build_name die package "STD" :: rest))
      ∧ (∃ rest, build_project_m2s_lines build_name device sources =
          Except.ok (new_project_line_m2s
            (if py_startswith (py_lower device) "m2s" then "SmartFusion2" else "IGLOO2")
            build_name die package "STD" :: rest)))
    ∧ (py_split '-' device = [die, package, g] →
        parse_device device = Except.ok (die, package, g)
        ∧ (py_upper g ≠ "STD" → py_startswith g "-" = false →
            format_speed g = "-" ++ g
            ∧ (∃ rest, build_project_mpf_lines build_name device sources =
                Except.ok (new_project_line_mpf build_name die package ("-" ++ g) :: rest))))
    ∧ (py_startswith g "-" = true → format_speed g = g)
    ∧ ((py_split '-' device).length ≠ 2 → (py_split '-' device).length ≠ 3 →
        build_project_mpf build_name device sources =
          Except.error ("Unexpected device string format: " ++ device)
        ∧ build_project_m2s build_name device sources =
          Except.error ("Unexpected device string format: " ++ device)) := by
  refine ⟨?_, ?_, ?_, ?_⟩
  · intro h
    have hp : parse_device device = Except.ok (die, package, "STD") := by
      simp [parse_device, h]
    have hf : format_speed "STD" = "STD" := by decide
    refine ⟨hp, hf,
      ⟨sources.map (fun f => "import_files -hdl_source \x7b" ++ f ++ "\x7d")
        ++ import_files_lines build_name
        ++ [organize_synthesize_line build_name, organize_placeroute_line build_name,
            organize_verifytiming_line build_name]
        ++ run_tool_lines ++ [export_prog_job_mpf build_name], ?_⟩,
      ⟨sources.map (fun f => "import_files -hdl_source " ++ tcl_name f)
        ++ import_files_lines build_name
        ++ [organize_synthesize_line build_name, organize_placeroute_line build_name,
            organize_verifytiming_line build_name]
        ++ run_tool_lines ++ [export_prog_job_m2s build_name], ?_⟩⟩
    · simp only [build_project_mpf_lines, hp, hf]
      rfl
    · simp only [build_project_m2s_lines, hp, hf]
      rfl
  · intro h
    have hp : parse_device device = Except.ok (die, package, g) := by
      simp [parse_device, h]
    refine ⟨hp, ?_⟩
    intro hg1 hg2
    have hf : format_speed g = "-" ++ g := by
      simp [format_speed, hg1, hg2]
    refine ⟨hf,
      ⟨sources.map (fun f => "import_files -hdl_source \x7b" ++ f ++ "\x7d")
        ++ import_files_lines build_name
        ++ [organize_synthesize_line build_name, organize_placeroute_line build_name,
            organize_verifytiming_line build_name]
        ++ run_tool_lines ++ [export_prog_job_mpf build_name], ?_⟩⟩
    simp only [build_project_mpf_lines, hp, hf]
    rfl
  · intro h
    by_cases hu : py_upper g = "STD" <;> simp [format_speed, hu, h]
  · intro h2 h3
    have hp := parse_device_not23 device h2 h3
    have hl1 : build_project_mpf_lines build_name device sources =
        Except.error ("Unexpected device string format: " ++ device) := by
      simp only [build_project_mpf_lines, hp]
    have hl2 : build_project_m2s_lines build_name device sources =
        Except.error ("Unexpected device string format: " ++ device) := by
      simp only [build_project_m2s_lines, hp]
    constructor
    · unfold build_project_mpf
      rw [hl1]
      rfl
    · unfold build_project_m2s
      rw [hl2]
      rfl

/-- Witness for C2 at concrete descriptors of each shape. -/
theorem c2_speed_grade_witness :
    parse_device "mpf100t-fcg484" = Except.ok ("mpf100t", "fcg484", "STD")
    ∧ format_speed "1" = "-" ++ "1"
    ∧ format_speed "-1" = "-1"
    ∧ build_project_mpf "top" "mpf100t" [] =
        Except.error ("Unexpected device string format: " ++ "mpf100t") :=
  ⟨((c2_speed_grade "top" "mpf100t-fcg484" "mpf100t" "fcg484" "x" []).1
      (by decide)).1,
   ((((c2_speed_grade "top" "mpf100t-fcg484-1" "mpf100t" "fcg484" "1" []).2.1
      (by decide)).2 (by decide) (by decide)).1),
   (c2_speed_grade "top" "d" "x" "y" "-1" []).2.2.1 (by decide),
   ((c2_speed_grade "top" "mpf100t" "x" "y" "z" []).2.2.2
      (by decide) (by decide)).1⟩

/-! ## Claim C3 -/

/-- Claim C3: a signal entry binding more than one pin contributes exactly
one constraint line per pin, the i-th line naming the signal with the
bracketed index `[i]` and bound to the i-th pin, in pin order. -/
theorem c3_vector_io_lines (device sig : String) (pins : List String)
    (others : List SigAttr) (resname : String) (h : 1 < pins.length) :
    ∃ lines : List String,
      io_pdc_of_entry device ⟨sig, pins, others, resname⟩ = some (String.join lines)
      ∧ lines.length = pins.length
      ∧ ∀ i, i < pins.length →
          lines[i]? = some (format_io_pdc device (sig ++ "[" ++ toString i ++ "]")
            (pins.getD i "") others) := by
  refine ⟨pins.enum.map fun ip =>
    format_io_pdc device (sig ++ "[" ++ toString ip.1 ++ "]") ip.2 others, ?_, ?_, ?_⟩
  · simp [io_pdc_of_entry, h]
  · simp [List.enum_length]
  · intro i hi
    rw [List.getElem?_map, List.getElem?_enum, List.getElem?_eq_getElem hi,
      List.getD_eq_getElem pins "" hi]
    rfl

/-- Witness for C3: a three-pin vector signal. -/
theorem c3_vector_io_lines_witness :
    ∃ lines : List String,
      io_pdc_of_entry "MPF300TS" ⟨"sig", ["p0", "p1", "p2"], [], ""⟩ =
        some (String.join lines)
      ∧ lines.length = (["p0", "p1", "p2"] : List String).length
      ∧ ∀ i, i < (["p0", "p1", "p2"] : List String).length →
          lines[i]? = some (format_io_pdc "MPF300TS" ("sig" ++ "[" ++ toString i ++ "]")
            ((["p0", "p1", "p2"] : List String).getD i "") []) :=
  c3_vector_io_lines "MPF300TS" "sig" ["p0", "p1", "p2"] [] "" (by decide)

/-! ## Claim C6 -/

/-- Claim C6: a device descriptor that does not split into exactly 2 or 3
dash-separated fields makes the build fail with no produced file; the two
in-source project builders raise the malformed-descriptor error before
emitting their script. -/
theorem c6_malformed_device_no_files (st : BuildState)
    (h2 : (py_split '-' st.device).length ≠ 2)
    (h3 : (py_split '-' st.device).length ≠ 3) :
    (∃ e, build_pipeline st = Except.error e)
    ∧ build_project_mpf st.build_name st.device st.sources =
        Except.error ("Unexpected device string format: " ++ st.device)
    ∧ build_project_m2s st.build_name st.device st.sources =
        Except.error ("Unexpected device string format: " ++ st.device) := by
  have hp := parse_device_not23 st.device h2 h3
  refine ⟨?_, ?_, ?_⟩
  · cases hsel : build_select_overrides st.device with
    | error e => exact ⟨e, by simp [build_pipeline, hsel]⟩
    | ok tbl =>
      exact ⟨"Unexpected device string format: " ++ st.device,
        by simp [build_pipeline, hsel, hp]⟩
  · have hl : build_project_mpf_lines st.build_name st.device st.sources =
        Except.error ("Unexpected device string format: " ++ st.device) := by
      simp only [build_project_mpf_lines, hp]
    unfold build_project_mpf
    rw [hl]
    rfl
  · have hl : build_project_m2s_lines st.build_name st.device st.sources =
        Except.error ("Unexpected device string format: " ++ st.device) := by
      simp only [build_project_m2s_lines, hp]
    unfold build_project_m2s
    rw [hl]
    rfl

/-- Witness for C6 at a one-field device descriptor. -/
theorem c6_malformed_device_no_files_witness :
    (∃ e, build_pipeline ⟨"mpf100t", "top", [], [], [], [], [], [], [], []⟩ =
      Except.error e)
    ∧ build_project_mpf "top" "mpf100t" [] =
        Except.error ("Unexpected device string format: " ++ "mpf100t")
    ∧ build_project_m2s "top" "mpf100t" [] =
        Except.error ("Unexpected device string format: " ++ "mpf100t") :=
  c6_malformed_device_no_files ⟨"mpf100t", "top", [], [], [], [], [], [], [], []⟩
    (by decide) (by decide)

/-! ## Claim C7 -/

/-- Claim C7, counterexample: when the write of the temporary script fails
after the file was created, `program_device` re-raises the `IOError` before
the cleanup clause, and the script is still on disk. -/
theorem c7_cleanup_counterexample :
    (program_device "build" "top" "mpf100t-fcg484-1" WriteBehavior.failCreated
      ToolBehavior.exitZero).scriptExists = true
    ∧ (program_device "build" "top" "mpf100t-fcg484-1" WriteBehavior.failCreated
      ToolBehavior.exitZero).outcome = ProgOutcome.ioError :=
  ⟨by decide, by decide⟩

/-- Claim C7, amended: the temporary script is removed after successful
programming and after a non-zero tool exit; an I/O error that prevents the
script from being created also leaves no file; but the guaranteed-cleanup
clause does not cover an I/O error raised while writing the script. -/
theorem c7_cleanup_amended (build_dir project_name device_string : String)
    (t : ToolBehavior) :
    (program_device build_dir project_name device_string
        WriteBehavior.ok t).scriptExists = false
    ∧ (program_device build_dir project_name device_string
        WriteBehavior.failNotCreated t).scriptExists = false := by
  constructor <;>
  · rcases hs : py_split '-' device_string with _ | ⟨a, _ | ⟨b, _ | ⟨c, _ | ⟨d, l⟩⟩⟩⟩ <;>
      cases t <;> simp [program_device, hs]

/-! ## Claim C8 -/

theorem find_impl_dir_snoc (l : List String) (a : String) :
    find_impl_dir (l ++ [a]) =
      if a = "impl" then some (l ++ [a]) else find_impl_dir l := by
  by_cases h : a = "impl" <;>
    simp [find_impl_dir, find_impl_rev, List.reverse_append, h]

theorem find_impl_rev_none (l : List String) (h : "impl" ∉ l) :
    find_impl_rev l = none := by
  induction l with
  | nil => rfl
  | cons a l ih =>
    have h1 : ¬ a = "impl" := fun hh => h (by simp [hh])
    have h2 : "impl" ∉ l := fun hh => h (List.mem_cons_of_mem a hh)
    simp [find_impl_rev, h1, ih h2]

theorem find_impl_dir_none (p : List String) (h : "impl" ∉ p) :
    find_impl_dir p = none := by
  have hr : find_impl_rev p.reverse = none :=
    find_impl_rev_none p.reverse (by simpa using h)
  simp [find_impl_dir, hr]

/-- Claim C8: for a job path `.../build/impl/designer/top/export/top.job`
the programmer resolves the build directory to `.../build` (parent of the
nearest `impl` component), the project name to `top` (job-file stem), and
passes the first dash field of the device as the die of the programming
action; a path with no `impl` component raises the fatal path error. -/
theorem c8_programmer_paths (pre p : List String) (d : Option String)
    (pp jf : String) (hnoimpl : "impl" ∉ p) :
    load_bitstream (pre ++ ["build", "impl", "designer", "top", "export", "top.job"])
        (some "mpf100t-fcg484-1") =
      Except.ok (pre ++ ["build"], "top", "mpf100t-fcg484-1")
    ∧ extract_die "mpf100t-fcg484-1" = Except.ok "mpf100t"
    ∧ (program_tcl_lines pp jf "top" "mpf100t")[2]? =
        some "set_programming_action -name \x7bmpf100t\x7d -action \x7bPROGRAM\x7d"
    ∧ (∃ e, load_bitstream p d = Except.error e) := by
  refine ⟨?_, by rfl, by rfl, ?_⟩
  · have hfind : find_impl_dir
        (pre ++ ["build", "impl", "designer", "top", "export", "top.job"]) =
        some (pre ++ ["build", "impl"]) := by
      have e1 : pre ++ ["build", "impl", "designer", "top", "export", "top.job"] =
          (((((pre ++ ["build"]) ++ ["impl"]) ++ ["designer"]) ++ ["top"]) ++
            ["export"]) ++ ["top.job"] := by simp
      rw [e1, find_impl_dir_snoc, if_neg (by decide), find_impl_dir_snoc,
        if_neg (by decide), find_impl_dir_snoc, if_neg (by decide),
        find_impl_dir_snoc, if_neg (by decide), find_impl_dir_snoc, if_pos rfl]
      simp
    have hlast : (pre ++ ["build", "impl", "designer", "top", "export",
        "top.job"]).getLastD "" = "top.job" := by
      have e2 : pre ++ ["build", "impl", "designer", "top", "export", "top.job"] =
          (pre ++ ["build", "impl", "designer", "top", "export"]) ++ ["top.job"] := by
        simp
      rw [e2, List.getLastD_concat]
    have hdrop : (pre ++ ["build", "impl"]).dropLast = pre ++ ["build"] := by
      have e3 : pre ++ ["build", "impl"] = (pre ++ ["build"]) ++ ["impl"] := by simp
      rw [e3, List.dropLast_concat]
    simp only [load_bitstream, hfind, hlast, hdrop]
    rfl
  · exact ⟨"Could not find impl directory in the path of " ++ String.intercalate "/" p,
      by simp [load_bitstream, find_impl_dir_none p hnoimpl]⟩

/-- Witness for C8 at a concrete path prefix and a concrete impl-free path. -/
theorem c8_programmer_paths_witness :
    load_bitstream (["home", "user"] ++
        ["build", "impl", "designer", "top", "export", "top.job"])
      (some "mpf100t-fcg484-1") =
      Except.ok (["home", "user"] ++ ["build"], "top", "mpf100t-fcg484-1")
    ∧ extract_die "mpf100t-fcg484-1" = Except.ok "mpf100t"
    ∧ (program_tcl_lines "pp" "jf" "top" "mpf100t")[2]? =
        some "set_programming_action -name \x7bmpf100t\x7d -action \x7bPROGRAM\x7d"
    ∧ (∃ e, load_bitstream ["a", "b.job"] none = Except.error e) :=
  c8_programmer_paths ["home", "user"] ["a", "b.job"] none "pp" "jf" (by decide)

/-! ## Claim C9 -/

/-- Claim C9: `program_device` accepts only a three-field device string;
any other field count — including the two-field form the project builders
accept with a defaulted speed grade — raises at the die extraction, before
the script is written or the tool is run. -/
theorem c9_programmer_device_fields (build_dir project_name device_string : String)
    (w : WriteBehavior) (t : ToolBehavior) :
    ((py_split '-' device_string).length ≠ 3 →
      program_device build_dir project_name device_string w t =
        ⟨true, false, none, false, ProgOutcome.valueError⟩)
    ∧ ((py_split '-' device_string).length = 2 →
        ∃ r, parse_device device_string = Except.ok r) := by
  constructor
  · intro h
    rcases hs : py_split '-' device_string with _ | ⟨a, _ | ⟨b, _ | ⟨c, _ | ⟨d, l⟩⟩⟩⟩
    · simp [program_device, hs]
    · simp [program_device, hs]
    · simp [program_device, hs]
    · exact absurd (by rw [hs]; rfl) h
    · simp [program_device, hs]
  · intro h
    rcases hs : py_split '-' device_string with _ | ⟨a, _ | ⟨b, l⟩⟩
    · rw [hs] at h
      simp at h
    · rw [hs] at h
      simp at h
    · rcases l with _ | ⟨c, l⟩
      · exact ⟨(a, b, "STD"), by simp [parse_device, hs]⟩
      · rw [hs] at h
        simp only [List.length_cons, List.length_nil] at h
        omega

/-- Witness for C9 at the two-field device string the build side accepts. -/
theorem c9_programmer_device_fields_witness :
    program_device "bd" "top" "mpf100t-fcg484" WriteBehavior.ok ToolBehavior.exitZero =
      ⟨true, false, none, false, ProgOutcome.valueError⟩
    ∧ ∃ r, parse_device "mpf100t-fcg484" = Except.ok r :=
  ⟨(c9_programmer_device_fields "bd" "top" "mpf100t-fcg484" WriteBehavior.ok
      ToolBehavior.exitZero).1 (by decide),
   (c9_programmer_device_fields "bd" "top" "mpf100t-fcg484" WriteBehavior.ok
      ToolBehavior.exitZero).2 (by decide)⟩

/-! ## Claim C10 -/

/-- Claim C10: the floorplan file is exactly the raw user strings joined by
newlines, and the registered placement tuples are never read: two builds
differing only in `placement_constraints` generate identical files. -/
theorem c10_placement_constraints_unused (st : BuildState)
    (pc1 pc2 : List (String × String × String)) (inst x y : String) :
    build_pipeline { st with placement_constraints := pc1 } =
      build_pipeline { st with placement_constraints := pc2 }
    ∧ build_pipeline { st with placement_constraints :=
        add_placement_constraint st.placement_constraints inst x y } = build_pipeline st
    ∧ build_placement_constraints st.build_name st.additional_fp_constraints =
        ⟨st.build_name ++ "_fp.pdc",
         String.intercalate "\n" st.additional_fp_constraints, "PDC"⟩ := by
  cases st
  exact ⟨rfl, rfl, rfl⟩

end Microsemi
